import Mathlib

/-!
Shallow embedding of the `realtime-subtitle` development-supervisor core:
the file-change debouncer and supervisor loop of `src/reloader.py`, and the
dependency bootstrapper of `src/launcher.py`.  Time is modelled by `ℚ`;
process handles by `Nat`; emitted Qt signals and OS actions by traces.
-/

namespace Reloader

/-- Kinds of file-system events delivered by the watchdog observer. -/
inductive EventKind
  | created
  | modified
  | deleted
  deriving DecidableEq, Repr

/-- A file-system event as seen by the handler: source path, directory flag,
event kind, and the (real) time at which the handler processes it. -/
structure WatchEvent where
  src_path : String
  is_directory : Bool
  kind : EventKind
  timestamp : ℚ
  deriving DecidableEq, Repr

/-- The debounce interval hard-coded in `RestartHandler.on_modified`
(`time.time() - self.last_reload > 1.0`). -/
def min_interval : ℚ := 1

/-- Python `str.endswith`: the suffix test on the underlying character
sequences (kernel-evaluable, unlike `String.endsWith`). -/
def strEndsWith (s suf : String) : Bool := suf.data.isSuffixOf s.data

/-- State of `RestartHandler`: the `last_reload` timestamp.  The callback is
modelled by the `Bool` "fired" flag returned by the event methods. -/
structure RestartHandler where
  last_reload : ℚ
  deriving DecidableEq, Repr

/-- `RestartHandler.__init__`: `self.last_reload = time.time()` — the clock
starts at construction time `t0`. -/
def RestartHandler.init (t0 : ℚ) : RestartHandler := ⟨t0⟩

/-- `RestartHandler.on_modified`: directory events return early; only paths
ending in `.py` or `.ini` qualify; a qualifying event fires the callback and
updates `last_reload` iff more than `min_interval` has elapsed. -/
def RestartHandler.on_modified (h : RestartHandler) (e : WatchEvent) :
    RestartHandler × Bool :=
  if e.is_directory then (h, false)
  else if strEndsWith e.src_path ".py" || strEndsWith e.src_path ".ini" then
    if e.timestamp - h.last_reload > min_interval then (⟨e.timestamp⟩, true)
    else (h, false)
  else (h, false)

/-- Watchdog event dispatch: `RestartHandler` overrides only `on_modified`;
created/deleted events hit the base-class no-op handlers. -/
def RestartHandler.dispatch (h : RestartHandler) (e : WatchEvent) :
    RestartHandler × Bool :=
  match e.kind with
  | .modified => h.on_modified e
  | _ => (h, false)

/-- Run the handler over a sequence of events, collecting the timestamps at
which the restart callback fired. -/
def processEvents (h : RestartHandler) : List WatchEvent → RestartHandler × List ℚ
  | [] => (h, [])
  | e :: es =>
    let step := h.dispatch e
    let rest := processEvents step.1 es
    (rest.1, if step.2 then e.timestamp :: rest.2 else rest.2)

/-- The debounce gap relation: the later fire is more than `min_interval`
after the earlier one. -/
def gapOk (a b : ℚ) : Prop := b - a > min_interval

instance : IsTrans ℚ gapOk :=
  ⟨fun _ _ _ h1 h2 => by
    unfold gapOk min_interval at *
    linarith⟩

/-- Each dispatch either leaves the handler unchanged without firing, or fires
with the debounce guard satisfied and `last_reload` set to the event time. -/
theorem dispatch_cases (h : RestartHandler) (e : WatchEvent) :
    h.dispatch e = (h, false) ∨
      (h.dispatch e = (⟨e.timestamp⟩, true) ∧
        e.timestamp - h.last_reload > min_interval) := by
  obtain ⟨p, d, k, ts⟩ := e
  cases k
  case created => exact Or.inl rfl
  case deleted => exact Or.inl rfl
  case modified =>
    simp only [RestartHandler.dispatch, RestartHandler.on_modified]
    by_cases hdir : d = true
    · simp [hdir]
    · by_cases hext : (strEndsWith p ".py" || strEndsWith p ".ini") = true
      · by_cases hgap : ts - h.last_reload > min_interval
        · exact Or.inr ⟨by simp [hdir, hext, hgap], hgap⟩
        · exact Or.inl (by simp [hdir, hext, hgap])
      · exact Or.inl (by simp [hdir, hext])

/-- The fire timestamps form a `gapOk`-chain rooted at the initial
`last_reload`: the first fire is more than `min_interval` after it, and each
subsequent fire more than `min_interval` after its predecessor. -/
theorem fires_chain (es : List WatchEvent) (h : RestartHandler) :
    List.Chain gapOk h.last_reload (processEvents h es).2 := by
  induction es generalizing h with
  | nil => exact List.Chain.nil
  | cons e es ih =>
    rcases dispatch_cases h e with hc | ⟨hc, hgap⟩
    · simpa [processEvents, hc] using ih h
    · have := ih ⟨e.timestamp⟩
      simpa [processEvents, hc] using
        List.Chain.cons (show gapOk h.last_reload e.timestamp from hgap) this

/-- Fire timestamps are pairwise more than `min_interval` apart. -/
theorem fires_pairwise (es : List WatchEvent) (h : RestartHandler) :
    (processEvents h es).2.Pairwise gapOk :=
  ((List.chain_iff_pairwise.mp (fires_chain es h)).sublist
    (List.sublist_cons_self _ _))

/-- Any list whose elements are pairwise more than `min_interval` apart has at
most one element in any closed window of length `min_interval`. -/
theorem window_of_pairwise (l : List ℚ) (t : ℚ) (hpw : l.Pairwise gapOk) :
    (l.filter (fun x => decide (t ≤ x) && decide (x ≤ t + min_interval))).length
      ≤ 1 := by
  induction l with
  | nil => simp
  | cons a l ih =>
    rw [List.pairwise_cons] at hpw
    by_cases hpa : (decide (t ≤ a) && decide (a ≤ t + min_interval)) = true
    · rw [List.filter_cons, if_pos hpa]
      have hnil : l.filter
          (fun x => decide (t ≤ x) && decide (x ≤ t + min_interval)) = [] := by
        rw [List.filter_eq_nil_iff]
        intro b hb hpb
        have hgab := hpw.1 b hb
        simp only [Bool.and_eq_true, decide_eq_true_eq] at hpa hpb
        unfold gapOk min_interval at hgab
        unfold min_interval at hpa hpb
        linarith [hpa.1, hpb.2]
      simp [hnil]
    · rw [List.filter_cons, if_neg hpa]
      exact ih hpw.2

/-- In any closed window of length `min_interval`, at most one fire occurs. -/
theorem fires_window (es : List WatchEvent) (h : RestartHandler) (t : ℚ) :
    ((processEvents h es).2.filter
      (fun x => decide (t ≤ x) && decide (x ≤ t + min_interval))).length ≤ 1 :=
  window_of_pairwise _ t (fires_pairwise es h)

/-! ### The graceful-restart trace of `restart_process` -/

/-- A child process as the restart routine sees it: its handle and whether it
exits within the 2-second grace window after `terminate()`. -/
structure Child where
  pid : Nat
  respondsToTerminate : Bool
  deriving DecidableEq, Repr

/-- Primitive OS-level actions issued by `restart_process`.  `waitChild`
records a `process.wait(timeout)` call and whether it completed (reaping the
child) or raised `TimeoutExpired`. -/
inductive PAction
  | terminate (pid : Nat)
  | waitChild (pid : Nat) (timeout : Nat) (completed : Bool)
  | kill (pid : Nat)
  | spawn (pid : Nat)
  deriving DecidableEq, Repr

/-- The grace period of `process.wait(timeout=2)`. -/
def gracePeriod : Nat := 2

/-- `restart_process` as an action trace: terminate, wait up to the grace
period; on `TimeoutExpired`, kill — with no further wait — then spawn the
replacement via `run_app()`. -/
def restart_process (c : Child) (newPid : Nat) : List PAction :=
  if c.respondsToTerminate then
    [.terminate c.pid, .waitChild c.pid gracePeriod true, .spawn newPid]
  else
    [.terminate c.pid, .waitChild c.pid gracePeriod false, .kill c.pid,
     .spawn newPid]

/-- Whether the old child was reaped (a `wait` completed) before the first
`spawn` in the trace. -/
def reapedBeforeSpawn : List PAction → Bool
  | [] => false
  | .waitChild _ _ true :: _ => true
  | .spawn _ :: _ => false
  | _ :: rest => reapedBeforeSpawn rest

/-! ### The supervisor loop of `main` -/

/-- Phases of the supervisor loop: the `while True` poll loop, or terminated
(after `break`, the loop body never runs again). -/
inductive Phase
  | running
  | stopped
  deriving DecidableEq, Repr

/-- Supervisor state: the loop phase, whether the watchdog observer is still
delivering events, the handle of the current child, whether that child is alive,
and the next fresh handle `run_app()` would hand out. -/
structure SupState where
  phase : Phase
  observerActive : Bool
  process : Nat
  childAlive : Bool
  nextPid : Nat
  deriving DecidableEq, Repr

/-- Events the supervisor loop reacts to: a poll tick observing the exit
status (`none` = still running, `some c` = exited with code `c`), or the
debounced change signal invoking the `restart_process` callback. -/
inductive SupEvent
  | poll (exitCode : Option Int)
  | changeSignal
  deriving DecidableEq, Repr

/-- Effect of `restart_process` on the supervisor state: the old child is
terminated and a fresh one spawned with a new handle. -/
def restartProcessState (s : SupState) : SupState :=
  { s with process := s.nextPid, nextPid := s.nextPid + 1, childAlive := true }

/-- One supervision step of the loop in `main`: once the loop has exited (`stopped`)
nothing more happens; while running, a clean exit (code 0) stops the observer
and breaks out of the loop, a crash (nonzero) is ignored (`pass`), and a
change signal — deliverable only while the observer is active — triggers
`restart_process`. -/
def supervisorStep (s : SupState) (e : SupEvent) : SupState :=
  match s.phase with
  | .stopped => s
  | .running =>
    match e with
    | .poll none => s
    | .poll (some c) =>
      if c = 0 then
        { s with phase := .stopped, observerActive := false,
                 childAlive := false }
      else
        { s with childAlive := false }
    | .changeSignal =>
      if s.observerActive then restartProcessState s else s

/-- Run the supervisor over a list of events. -/
def stepAll (s : SupState) (evs : List SupEvent) : SupState :=
  evs.foldl supervisorStep s

/-- The initial supervisor state right after `main` spawns the first child
and starts the observer. -/
def initialSup : SupState :=
  { phase := .running, observerActive := true, process := 0,
    childAlive := true, nextPid := 1 }

/-- A stopped supervisor never changes again. -/
theorem stopped_absorbing (s : SupState) (hs : s.phase = .stopped)
    (evs : List SupEvent) : stepAll s evs = s := by
  induction evs with
  | nil => rfl
  | cons e evs ih =>
    have hstep : supervisorStep s e = s := by
      unfold supervisorStep
      rw [hs]
    unfold stepAll at *
    rw [List.foldl_cons, hstep, ih]

/-! ### The top-level startup of `main` -/

/-- Observable top-level actions of `main`. -/
inductive MainAction
  | printLine (msg : String)
  | spawnChild
  | startObserver
  | superviseLoop
  deriving DecidableEq, Repr

/-- `main` as a trace of top-level actions, parameterised by whether the
`watchdog` import succeeds: on `ImportError` it prints the two error lines
and returns — before `run_app()` is ever called. -/
def mainTrace (watchdogAvailable : Bool) : List MainAction :=
  MainAction.printLine "[Reloader] Starting development monitor..." ::
    (if watchdogAvailable then
      [.spawnChild, .startObserver, .superviseLoop]
    else
      [.printLine "[Reloader] Error: \x27watchdog\x27 library not found.",
       .printLine "Please install it: pip install watchdog"])

end Reloader

namespace Launcher

/-- Outcome of attempting `subprocess.Popen([... pip install ...])`: either
the spawn itself raises an OS error, or the subprocess starts and yields its
stdout lines, exit code and stderr text. -/
inductive SpawnResult
  | osError (msg : String)
  | started (stdoutLines : List String) (exitCode : Int) (stderrText : String)
  deriving DecidableEq, Repr

/-- The environment `DependencyInstaller.run` interacts with: the content of
`requirements.txt` as raw lines (`none` when the file is absent, raising
`FileNotFoundError`), and the result of spawning pip. -/
structure Env where
  requirementsTxt : Option (List String)
  pipSpawn : SpawnResult
  deriving DecidableEq, Repr

/-- Qt signals emitted by `DependencyInstaller`. -/
inductive Emit
  | progress (msg : String)
  | finished (success : Bool)
  deriving DecidableEq, Repr

/-- Result of one `run`: the ordered signal trace, and whether the pip
subprocess was actually spawned. -/
structure RunResult where
  emits : List Emit
  spawnedSubprocess : Bool
  deriving DecidableEq, Repr

/-- The manifest parse in `run`: keep raw lines that strip to nonempty and do
not start with `#`, then strip them. -/
def parseRequirements (lines : List String) : List String :=
  (lines.filter (fun l => !(l.trim == "") && !(l.startsWith "#"))).map
    String.trim

/-- The stdout-streaming loop: every nonempty line read is stripped and
emitted as a progress signal. -/
def streamEmits (stdoutLines : List String) : List Emit :=
  (stdoutLines.filter (fun l => !(l == ""))).map (fun l => .progress l.trim)

/-- `DependencyInstaller.run`, faithful to `src/launcher.py`: a missing
manifest short-circuits to `finished(True)` with no subprocess; an OS error
from `Popen` emits `"Failed to run pip: ..."` then `finished(False)`; a
started subprocess streams stdout, then reports success iff the exit code is
zero, emitting `"Error: <stderr>"` on a nonzero exit. -/
def DependencyInstaller_run (env : Env) : RunResult :=
  match env.requirementsTxt with
  | none =>
    { emits := [.progress "Checking dependencies...",
                .progress "requirements.txt not found. Skipping check.",
                .finished true],
      spawnedSubprocess := false }
  | some lines =>
    let _required := parseRequirements lines
    let pre := [Emit.progress "Checking dependencies...",
                Emit.progress "Installing/Verifying dependencies via pip..."]
    match env.pipSpawn with
    | .osError msg =>
      { emits := pre ++ [.progress ("Failed to run pip: " ++ msg),
                         .finished false],
        spawnedSubprocess := false }
    | .started outLines rc stderrText =>
      if rc = 0 then
        { emits := pre ++ streamEmits outLines ++
                   [.progress "Dependencies installed successfully.",
                    .finished true],
          spawnedSubprocess := true }
      else
        { emits := pre ++ streamEmits outLines ++
                   [.progress ("Error: " ++ stderrText), .finished false],
          spawnedSubprocess := true }

/-- The message prefixes of the two failure modes can never collide: a
"Failed to run pip" report is distinguishable from an "Error:" report
whatever the attached texts are. -/
theorem failure_messages_distinct (a b : String) :
    "Failed to run pip: " ++ a ≠ "Error: " ++ b := by
  intro hcontra
  have hd : ("Failed to run pip: " ++ a).data.head? =
      ("Error: " ++ b).data.head? := by rw [hcontra]
  obtain ⟨la⟩ := a
  obtain ⟨lb⟩ := b
  simp only [show ∀ l : List Char,
      ("Failed to run pip: " ++ String.mk l).data.head? = some 'F' from
      fun _ => rfl,
    show ∀ l : List Char,
      ("Error: " ++ String.mk l).data.head? = some 'E' from fun _ => rfl]
    at hd
  exact absurd hd (by decide)

end Launcher

/-! ## Claim theorems -/

open Reloader Launcher

/-- C1: for every sequence of qualifying WatchEvents (modified, non-directory,
watched extension), the debouncer discards an event whose delta from
`last_reload` is at most `min_interval` and otherwise fires exactly one signal
and updates `last_reload` to the current time; consequently the fired signals
are pairwise more than `min_interval` apart, and any window of length
`min_interval` contains at most one fired signal. -/
theorem C1_debounce (h : RestartHandler) (e : WatchEvent)
    (es : List WatchEvent) (t : ℚ)
    (hmod : e.kind = EventKind.modified) (hdir : e.is_directory = false)
    (hext : (strEndsWith e.src_path ".py" || strEndsWith e.src_path ".ini")
      = true) :
    (e.timestamp - h.last_reload ≤ min_interval → h.dispatch e = (h, false)) ∧
    (e.timestamp - h.last_reload > min_interval →
      h.dispatch e = (⟨e.timestamp⟩, true)) ∧
    (processEvents h es).2.Pairwise gapOk ∧
    ((processEvents h es).2.filter
      (fun x => decide (t ≤ x) && decide (x ≤ t + min_interval))).length
        ≤ 1 := by
  refine ⟨?_, ?_, fires_pairwise es h, fires_window es h t⟩
  · intro hle
    obtain ⟨p, d, k, ts⟩ := e
    simp only at hmod hdir hext hle ⊢
    subst hmod
    simp [RestartHandler.dispatch, RestartHandler.on_modified, hdir, hext,
      not_lt.mpr hle]
  · intro hgt
    obtain ⟨p, d, k, ts⟩ := e
    simp only at hmod hdir hext hgt ⊢
    subst hmod
    simp [RestartHandler.dispatch, RestartHandler.on_modified, hdir, hext, hgt]

/-- Witness for C1 at concrete inputs. -/
theorem C1_debounce_witness :
    (RestartHandler.init 0).dispatch
      { src_path := "app.py", is_directory := false,
        kind := EventKind.modified, timestamp := 2 } =
      ({ last_reload := 2 }, true) ∧
    (processEvents (RestartHandler.init 0)
      [{ src_path := "app.py", is_directory := false,
         kind := EventKind.modified, timestamp := 2 }]).2.Pairwise gapOk :=
  ⟨(C1_debounce (RestartHandler.init 0)
      { src_path := "app.py", is_directory := false,
        kind := EventKind.modified, timestamp := 2 }
      [] 0 rfl rfl (by decide)).2.1
      (by simp [RestartHandler.init, min_interval]),
   (C1_debounce (RestartHandler.init 0)
      { src_path := "app.py", is_directory := false,
        kind := EventKind.modified, timestamp := 2 }
      [{ src_path := "app.py", is_directory := false,
         kind := EventKind.modified, timestamp := 2 }] 0
      rfl rfl (by decide)).2.2.1⟩

/-- While running with a dead child, polls that keep observing a nonzero exit
code leave the supervisor state untouched (no automatic restart). -/
theorem crashed_polls_absorbed (s : SupState) (hrun : s.phase = Phase.running)
    (hdead : s.childAlive = false) :
    ∀ cs : List Int, (∀ x ∈ cs, ¬ x = 0) →
      stepAll s (cs.map (fun x => SupEvent.poll (some x))) = s := by
  intro cs
  induction cs with
  | nil => intro _; rfl
  | cons x cs ih =>
    intro hall
    have hx := hall x (by simp)
    have hstep : supervisorStep s (.poll (some x)) = s := by
      obtain ⟨ph, oa, pr, ca, np⟩ := s
      simp only at hrun hdead
      subst hrun
      subst hdead
      simp [supervisorStep, hx]
    unfold stepAll at *
    rw [List.map_cons, List.foldl_cons, hstep]
    exact ih (fun y hy => hall y (by simp [hy]))

/-- C2: from the Running phase, a clean child exit (code 0) stops the
observer and makes the supervisor Stopped, which is terminal: every later
event — including change signals — leaves the state unchanged, so no restart
ever occurs afterwards. -/
theorem C2_clean_exit_stops (s : SupState) (hrun : s.phase = Phase.running) :
    (supervisorStep s (.poll (some 0))).phase = Phase.stopped ∧
    (supervisorStep s (.poll (some 0))).observerActive = false ∧
    ∀ evs : List SupEvent,
      stepAll (supervisorStep s (.poll (some 0))) evs =
        supervisorStep s (.poll (some 0)) := by
  have hstep : supervisorStep s (.poll (some 0)) =
      { s with phase := Phase.stopped, observerActive := false,
               childAlive := false } := by
    obtain ⟨ph, oa, pr, ca, np⟩ := s
    simp only at hrun
    subst hrun
    simp [supervisorStep]
  refine ⟨by rw [hstep], by rw [hstep], fun evs => ?_⟩
  exact stopped_absorbing _ (by rw [hstep]) evs

/-- Witness for C2 at the initial supervisor state, with a change signal and
a further poll arriving after the clean exit. -/
theorem C2_clean_exit_stops_witness :
    (supervisorStep initialSup (.poll (some 0))).phase = Phase.stopped ∧
    stepAll (supervisorStep initialSup (.poll (some 0)))
        [SupEvent.changeSignal, SupEvent.poll none] =
      supervisorStep initialSup (.poll (some 0)) :=
  ⟨(C2_clean_exit_stops initialSup rfl).1,
   (C2_clean_exit_stops initialSup rfl).2.2 _⟩

/-- C3: from the Running phase with the observer active, a nonzero child exit
triggers no automatic restart — the state keeps the same process handle, the
observer stays active — and the child stays down under any further nonzero
polls; the next debounced change signal then spawns a fresh child whose
handle is distinct from the crashed one, returning the supervisor to
Running with a live child. -/
theorem C3_crash_waits_for_edit (s : SupState) (c : Int)
    (hrun : s.phase = Phase.running) (hobs : s.observerActive = true)
    (hpid : s.process < s.nextPid) (hc : ¬ c = 0) :
    (supervisorStep s (.poll (some c))).phase = Phase.running ∧
    (supervisorStep s (.poll (some c))).observerActive = true ∧
    (supervisorStep s (.poll (some c))).childAlive = false ∧
    (supervisorStep s (.poll (some c))).process = s.process ∧
    (∀ cs : List Int, (∀ x ∈ cs, ¬ x = 0) →
      stepAll (supervisorStep s (.poll (some c)))
          (cs.map (fun x => SupEvent.poll (some x))) =
        supervisorStep s (.poll (some c))) ∧
    (supervisorStep (supervisorStep s (.poll (some c)))
      SupEvent.changeSignal).process = s.nextPid ∧
    ¬ (supervisorStep (supervisorStep s (.poll (some c)))
      SupEvent.changeSignal).process = s.process ∧
    (supervisorStep (supervisorStep s (.poll (some c)))
      SupEvent.changeSignal).childAlive = true ∧
    (supervisorStep (supervisorStep s (.poll (some c)))
      SupEvent.changeSignal).phase = Phase.running := by
  have hstep : supervisorStep s (.poll (some c)) =
      { s with childAlive := false } := by
    obtain ⟨ph, oa, pr, ca, np⟩ := s
    simp only at hrun
    subst hrun
    simp [supervisorStep, hc]
  have hchange : supervisorStep { s with childAlive := false }
      SupEvent.changeSignal =
        { s with process := s.nextPid, nextPid := s.nextPid + 1,
                 childAlive := true } := by
    obtain ⟨ph, oa, pr, ca, np⟩ := s
    simp only at hrun hobs
    subst hrun
    subst hobs
    simp [supervisorStep, restartProcessState]
  refine ⟨by rw [hstep, hrun], by rw [hstep, hobs], by rw [hstep],
    by rw [hstep], fun cs hall => ?_, ?_, ?_, ?_, ?_⟩
  · rw [hstep]
    exact crashed_polls_absorbed { s with childAlive := false } hrun rfl cs hall
  · rw [hstep, hchange]
  · rw [hstep, hchange]
    exact fun hcontra => absurd hcontra.symm (Nat.ne_of_lt hpid)
  · rw [hstep, hchange]
  · rw [hstep, hchange, hrun]

/-- Witness for C3: the initial supervisor observes a crash with exit code 1,
absorbs two further crash polls, and restarts on the next change signal with
a fresh handle. -/
theorem C3_crash_waits_for_edit_witness :
    (supervisorStep initialSup (.poll (some 1))).childAlive = false ∧
    stepAll (supervisorStep initialSup (.poll (some 1)))
        ([1, 1].map (fun x => SupEvent.poll (some x))) =
      supervisorStep initialSup (.poll (some 1)) ∧
    (supervisorStep (supervisorStep initialSup (.poll (some 1)))
      SupEvent.changeSignal).process = 1 ∧
    ¬ (supervisorStep (supervisorStep initialSup (.poll (some 1)))
      SupEvent.changeSignal).process = initialSup.process :=
  ⟨(C3_crash_waits_for_edit initialSup 1 rfl rfl (by decide) (by decide)).2.2.1,
   (C3_crash_waits_for_edit initialSup 1 rfl rfl (by decide)
      (by decide)).2.2.2.2.1 [1, 1] (by decide),
   (C3_crash_waits_for_edit initialSup 1 rfl rfl (by decide)
      (by decide)).2.2.2.2.2.1,
   (C3_crash_waits_for_edit initialSup 1 rfl rfl (by decide)
      (by decide)).2.2.2.2.2.2.1⟩

/-- C4 counterexample: for a child that does not exit within the grace
period, `restart_process` sends the kill but never awaits it — the trace has
no completed wait between the kill and the spawn of the new child, so the
old child is not reaped before the stop returns. -/
theorem C4_counterexample_kill_not_awaited :
    restart_process { pid := 1, respondsToTerminate := false } 2 =
      [.terminate 1, .waitChild 1 gracePeriod false, .kill 1, .spawn 2] ∧
    reapedBeforeSpawn
      (restart_process { pid := 1, respondsToTerminate := false } 2)
      = false := by
  exact ⟨rfl, rfl⟩

/-- C4 amended: every `restart_process` invocation first sends a termination
request, then waits up to the fixed grace period; if the child has not exited
by then a forced kill is sent; a new child is spawned last.  The terminate
path is awaited (the child is reaped) before the spawn, but on the kill path
the kill is not awaited — the new child is spawned immediately after the
kill, without the old child being reaped. -/
theorem C4_graceful_restart_amended (c : Child) (newPid : Nat) :
    (restart_process c newPid).head? = some (.terminate c.pid) ∧
    PAction.waitChild c.pid gracePeriod c.respondsToTerminate ∈
      restart_process c newPid ∧
    (restart_process c newPid).getLast? = some (.spawn newPid) ∧
    (PAction.kill c.pid ∈ restart_process c newPid ↔
      c.respondsToTerminate = false) ∧
    reapedBeforeSpawn (restart_process c newPid) = c.respondsToTerminate := by
  obtain ⟨pid, r⟩ := c
  cases r <;> simp [restart_process, reapedBeforeSpawn]

/-- C5: when `requirements.txt` is absent, `DependencyInstaller.run` spawns
no pip subprocess and immediately reports success: the signal trace is the
two progress lines followed by `finished(True)`. -/
theorem C5_absent_manifest (env : Env) (habs : env.requirementsTxt = none) :
    (DependencyInstaller_run env).spawnedSubprocess = false ∧
    (DependencyInstaller_run env).emits =
      [.progress "Checking dependencies...",
       .progress "requirements.txt not found. Skipping check.",
       .finished true] ∧
    (DependencyInstaller_run env).emits.getLast? =
      some (.finished true) := by
  obtain ⟨req, sp⟩ := env
  simp only at habs
  subst habs
  exact ⟨rfl, rfl, rfl⟩

/-- Witness for C5 with a concrete environment. -/
theorem C5_absent_manifest_witness :
    (DependencyInstaller_run
      { requirementsTxt := none, pipSpawn := .osError "unused" }).emits =
      [.progress "Checking dependencies...",
       .progress "requirements.txt not found. Skipping check.",
       .finished true] ∧
    (DependencyInstaller_run
      { requirementsTxt := none,
        pipSpawn := .osError "unused" }).spawnedSubprocess = false :=
  ⟨(C5_absent_manifest
      { requirementsTxt := none, pipSpawn := .osError "unused" } rfl).2.1,
   (C5_absent_manifest
      { requirementsTxt := none, pipSpawn := .osError "unused" } rfl).1⟩

/-- C6: a `Popen` OS error yields `finished(False)` with the
`"Failed to run pip: ..."` message and no subprocess spawned, while a started
subprocess that exits nonzero yields `finished(False)` with the
`"Error: <stderr>"` message after the streamed output; the two reports are
distinguishable by the consumer since the characteristic messages can never
coincide, whatever the OS error and stderr texts are. -/
theorem C6_failure_outcomes (lines outLines : List String)
    (msg stderrText : String) (rc : Int) (hrc : ¬ rc = 0) :
    (DependencyInstaller_run
      { requirementsTxt := some lines,
        pipSpawn := .osError msg }).spawnedSubprocess = false ∧
    (DependencyInstaller_run
      { requirementsTxt := some lines, pipSpawn := .osError msg }).emits =
      [.progress "Checking dependencies...",
       .progress "Installing/Verifying dependencies via pip...",
       .progress ("Failed to run pip: " ++ msg), .finished false] ∧
    (DependencyInstaller_run
      { requirementsTxt := some lines,
        pipSpawn := .started outLines rc stderrText }).spawnedSubprocess
      = true ∧
    (DependencyInstaller_run
      { requirementsTxt := some lines,
        pipSpawn := .started outLines rc stderrText }).emits =
      [Emit.progress "Checking dependencies...",
       Emit.progress "Installing/Verifying dependencies via pip..."] ++
        streamEmits outLines ++
        [.progress ("Error: " ++ stderrText), .finished false] ∧
    ¬ ("Failed to run pip: " ++ msg = "Error: " ++ stderrText) := by
  refine ⟨rfl, rfl, ?_, ?_, failure_messages_distinct msg stderrText⟩ <;>
    simp [DependencyInstaller_run, hrc]

/-- Witness for C6 with a concrete nonzero exit code. -/
theorem C6_failure_outcomes_witness :
    (DependencyInstaller_run
      { requirementsTxt := some [],
        pipSpawn := .osError "No such file or directory" }).emits =
      [.progress "Checking dependencies...",
       .progress "Installing/Verifying dependencies via pip...",
       .progress ("Failed to run pip: " ++ "No such file or directory"),
       .finished false] ∧
    (DependencyInstaller_run
      { requirementsTxt := some [],
        pipSpawn := .started [] 1 "pip exploded" }).emits =
      [Emit.progress "Checking dependencies...",
       Emit.progress "Installing/Verifying dependencies via pip..."] ++
        streamEmits [] ++
        [.progress ("Error: " ++ "pip exploded"), .finished false] ∧
    ¬ ("Failed to run pip: " ++ "No such file or directory" =
        "Error: " ++ "pip exploded") :=
  ⟨(C6_failure_outcomes [] [] "No such file or directory" "pip exploded" 1
      (by decide)).2.1,
   (C6_failure_outcomes [] [] "No such file or directory" "pip exploded" 1
      (by decide)).2.2.2.1,
   (C6_failure_outcomes [] [] "No such file or directory" "pip exploded" 1
      (by decide)).2.2.2.2⟩

/-- C7 counterexample: when the watchdog import fails, `main` prints the
error lines and returns before `run_app()` — no child is ever spawned, so
the supervisor aborts instead of degrading to running without auto-restart.
-/
theorem C7_counterexample_no_degraded_run :
    (MainAction.printLine "[Reloader] Error: \x27watchdog\x27 library not found."
      ∈ mainTrace false) ∧
    ¬ (MainAction.spawnChild ∈ mainTrace false) := by
  decide

/-- C7 amended: an unavailable watch primitive makes `main` report the setup
error and abort before any child spawn: neither the child nor the observer is
started; only when the primitive is available does `main` spawn the child and
start watching. -/
theorem C7_no_watchdog_aborts_amended :
    mainTrace false =
      [.printLine "[Reloader] Starting development monitor...",
       .printLine "[Reloader] Error: \x27watchdog\x27 library not found.",
       .printLine "Please install it: pip install watchdog"] ∧
    ¬ (MainAction.spawnChild ∈ mainTrace false) ∧
    ¬ (MainAction.startObserver ∈ mainTrace false) ∧
    MainAction.spawnChild ∈ mainTrace true ∧
    MainAction.startObserver ∈ mainTrace true := by
  decide

/-- C8: an event whose path ends in neither watched extension, or any
directory event, never produces a change signal, whatever its kind, its
timing, and the handler state. -/
theorem C8_nonqualifying_never_fires (h : RestartHandler) (e : WatchEvent)
    (hnq : (strEndsWith e.src_path ".py" || strEndsWith e.src_path ".ini")
        = false ∨ e.is_directory = true) :
    h.dispatch e = (h, false) := by
  obtain ⟨p, d, k, ts⟩ := e
  cases k
  case created => rfl
  case deleted => rfl
  case modified =>
    simp only at hnq
    rcases hnq with hnq | hnq
    · by_cases hdir : d = true <;>
        simp [RestartHandler.dispatch, RestartHandler.on_modified, hdir, hnq]
    · simp [RestartHandler.dispatch, RestartHandler.on_modified, hnq]

/-- Witness for C8: a `.txt` modification and a directory event, both far
past the debounce window, produce no signal. -/
theorem C8_nonqualifying_never_fires_witness :
    (RestartHandler.init 0).dispatch
      { src_path := "notes.txt", is_directory := false,
        kind := EventKind.modified, timestamp := 100 } =
      (RestartHandler.init 0, false) ∧
    (RestartHandler.init 0).dispatch
      { src_path := "pkg.py", is_directory := true,
        kind := EventKind.modified, timestamp := 100 } =
      (RestartHandler.init 0, false) :=
  ⟨C8_nonqualifying_never_fires (RestartHandler.init 0)
      { src_path := "notes.txt", is_directory := false,
        kind := EventKind.modified, timestamp := 100 } (Or.inl (by decide)),
   C8_nonqualifying_never_fires (RestartHandler.init 0)
      { src_path := "pkg.py", is_directory := true,
        kind := EventKind.modified, timestamp := 100 } (Or.inr rfl)⟩

/-- C9 counterexample: a Created event for `app.py`, long after the debounce
window, is silently dropped by the handler, while the identical Modified
event fires — so Created/Deleted events are not qualifying change events. -/
theorem C9_counterexample_created_ignored :
    (RestartHandler.init 0).dispatch
      { src_path := "app.py", is_directory := false,
        kind := EventKind.created, timestamp := 100 } =
      (RestartHandler.init 0, false) ∧
    (RestartHandler.init 0).dispatch
      { src_path := "app.py", is_directory := false,
        kind := EventKind.deleted, timestamp := 100 } =
      (RestartHandler.init 0, false) ∧
    (RestartHandler.init 0).dispatch
      { src_path := "app.py", is_directory := false,
        kind := EventKind.modified, timestamp := 100 } =
      ({ last_reload := 100 }, true) := by
  refine ⟨rfl, rfl, ?_⟩
  have hext : (strEndsWith "app.py" ".py" || strEndsWith "app.py" ".ini")
      = true := by decide
  have hgap : min_interval < (100 : ℚ) := by simp [min_interval]
  simp [RestartHandler.dispatch, RestartHandler.on_modified,
    RestartHandler.init, hext, hgap]

/-- C9 amended: the handler overrides only `on_modified`, so only Modified
events can produce a change signal; Created and Deleted events are ignored
for every handler state, path and timing. -/
theorem C9_only_modified_qualifies_amended (h : RestartHandler)
    (e : WatchEvent) (hk : ¬ e.kind = EventKind.modified) :
    h.dispatch e = (h, false) := by
  obtain ⟨p, d, k, ts⟩ := e
  simp only at hk
  cases k
  case created => rfl
  case deleted => rfl
  case modified => exact absurd rfl hk

/-- Witness for the amended C9 at a concrete Deleted event. -/
theorem C9_only_modified_qualifies_amended_witness :
    (RestartHandler.init 0).dispatch
      { src_path := "app.py", is_directory := false,
        kind := EventKind.deleted, timestamp := 100 } =
      (RestartHandler.init 0, false) :=
  C9_only_modified_qualifies_amended (RestartHandler.init 0)
    { src_path := "app.py", is_directory := false,
      kind := EventKind.deleted, timestamp := 100 } (by decide)

/-- C10: `last_reload` starts at construction time, so a freshly constructed
handler drops every qualifying event within `min_interval` of construction,
and any event that does fire lies strictly more than `min_interval` after
the construction time. -/
theorem C10_initial_debounce (t0 : ℚ) (e : WatchEvent)
    (hle : e.timestamp - t0 ≤ min_interval) :
    ((RestartHandler.init t0).dispatch e).2 = false ∧
    ∀ e2 : WatchEvent, ((RestartHandler.init t0).dispatch e2).2 = true →
      e2.timestamp > t0 + min_interval := by
  constructor
  · rcases dispatch_cases (RestartHandler.init t0) e with hc | ⟨_, hgap⟩
    · rw [hc]
    · exact absurd hgap (not_lt.mpr hle)
  · intro e2 hfire
    rcases dispatch_cases (RestartHandler.init t0) e2 with hc | ⟨_, hgap⟩
    · rw [hc] at hfire
      exact absurd hfire (by simp)
    · have : e2.timestamp - t0 > min_interval := hgap
      linarith

/-- Witness for C10: a qualifying event arriving exactly `min_interval`
after construction is dropped by the freshly constructed handler. -/
theorem C10_initial_debounce_witness :
    ((RestartHandler.init 0).dispatch
      { src_path := "app.py", is_directory := false,
        kind := EventKind.modified, timestamp := 1 }).2 = false :=
  (C10_initial_debounce 0
    { src_path := "app.py", is_directory := false,
      kind := EventKind.modified, timestamp := 1 }
    (by simp [min_interval])).1
